import Mathlib

/-!
Verification of the dynamic query pipeline and the spreadsheet comparator of
the FinancialAnalytics dashboard backend.

The Python sources are embedded shallowly:

* `backend/New folder/sql_utils.py` — the SQL safety validator
  (`is_safe_sql`, `validate_sql`, `escape_literal`) together with an
  executable model of the regular-expression token search it performs;
* `backend/services.py` — `DataService.apply_filters`,
  `DataService.execute_query_for_chart`, `DataService.execute_query_for_table`
  and `DataService.execute_filtered_query`, with the database modelled as an
  explicit oracle (`Db`) mapping each SQL text to the outcome the driver
  would produce (a frame, a timeout, or an exception carrying a message);
* `backend/New folder/routers/excel_compare.py` — `compare_sheets` and the
  workbook-level comparison loop of `compare_excel_files`.

Machine floats only occur as Python `float(...)` coercions of integral or
decimal database values; they are modelled exactly as rationals.  Wall-clock
fields (`execution_time`) and server-side logging are omitted: they carry no
specified behaviour.  Strings are Lean `String`s; the Python `str` methods
used by the sources (`strip`, `lower`, `upper`, `rstrip(";")`, `in`,
`startswith`, slicing) are modelled character-exactly on ASCII data below.
-/

/-! ## Python string primitives -/

/-- Whitespace characters recognised by Python `str.strip()` (ASCII range). -/
def pyIsSpace (c : Char) : Bool :=
  c = ' ' || c = '\t' || c = '\n' || c = '\r' || c = '\x0b' || c = '\x0c'

/-- Python `str.strip()` on a character list: drop whitespace at both ends. -/
def pyStrip (s : List Char) : List Char :=
  ((s.dropWhile pyIsSpace).reverse.dropWhile pyIsSpace).reverse

/-- Python `str.lower()` (ASCII case folding). -/
def pyLower (s : List Char) : List Char :=
  s.map Char.toLower

/-- Python `str.upper()` (ASCII case folding). -/
def pyUpper (s : List Char) : List Char :=
  s.map Char.toUpper

/-- Python `str.rstrip(";")`: drop every trailing semicolon. -/
def rstripSemis (s : List Char) : List Char :=
  (s.reverse.dropWhile (fun c => c = ';')).reverse

/-- Python substring test `needle in hay`. -/
def containsSub (needle : List Char) : List Char → Bool
  | [] => needle.isPrefixOf []
  | s@(_ :: t) => needle.isPrefixOf s || containsSub needle t

/-- Substring test on whole strings. -/
def strContains (hay needle : String) : Bool :=
  containsSub needle.data hay.data

/-- Word characters in the sense of the regex class `\w` (ASCII). -/
def isWordChar (c : Char) : Bool :=
  c.isAlphanum || c = '_'

/-- Python string slicing `s[:n]`. -/
def strTake (s : String) (n : Nat) : String :=
  String.mk (s.data.take n)

/-- Join a list of strings with a separator, as Python `sep.join(parts)`. -/
def strJoin (sep : String) : List String → String
  | [] => ""
  | [x] => x
  | x :: xs => x ++ sep ++ strJoin sep xs

/-! ## Regular-expression model for `sql_utils.py`

The module compiles one alternation `_FORBIDDEN_PATTERN` out of the token
list `_FORBIDDEN_TOKENS` and calls `.search` on the lower-cased, stripped
statement.  Every token of the source is a concatenation of the simple
pieces below, so the search is modelled by a direct matcher.  All
quantified pieces (`\s*`, `\s+`, `\d+`, `\w+`) are matched greedily; in
every token of the source the piece that follows a quantifier cannot
consume a character the quantifier accepts, so greedy matching agrees with
the backtracking regex engine.  The boundary `\b` only occurs directly
after a word character in these tokens, so it holds exactly when the next
character is absent or is not a word character. -/

inductive Pat where
  /-- A literal character sequence. -/
  | lit (cs : List Char)
  /-- The class `\s*`. -/
  | ws0
  /-- The class `\s+`. -/
  | ws1
  /-- The class `\d+`. -/
  | digits1
  /-- The class `\w+`. -/
  | word1
  /-- A word boundary `\b` occurring right after a word character. -/
  | wb
  /-- An optional single quote. -/
  | optQuote
deriving DecidableEq

/-- Match a pattern sequence against a prefix of the input. -/
def matchPats : List Pat → List Char → Bool
  | [], _ => true
  | .lit cs :: ps, s => cs.isPrefixOf s && matchPats ps (s.drop cs.length)
  | .ws0 :: ps, s => matchPats ps (s.dropWhile pyIsSpace)
  | .ws1 :: ps, s =>
      (match s with | c :: _ => pyIsSpace c | [] => false)
        && matchPats ps (s.dropWhile pyIsSpace)
  | .digits1 :: ps, s =>
      (match s with | c :: _ => c.isDigit | [] => false)
        && matchPats ps (s.dropWhile Char.isDigit)
  | .word1 :: ps, s =>
      (match s with | c :: _ => isWordChar c | [] => false)
        && matchPats ps (s.dropWhile isWordChar)
  | .wb :: ps, s =>
      (match s with | [] => true | c :: _ => !isWordChar c) && matchPats ps s
  | .optQuote :: ps, s =>
      matchPats ps s
        || ((match s with | c :: _ => c = '\'' | [] => false) && matchPats ps (s.drop 1))

/-- Regex `search`: does the pattern match starting at some position? -/
def searchAt (p : List Pat) : List Char → Bool
  | [] => matchPats p []
  | s@(_ :: t) => matchPats p s || searchAt p t

/-- Shorthand for a pure literal token. -/
def litTok (s : String) : List Pat := [.lit s.data]

/-- Shorthand for a keyword token `kw\b`. -/
def kwTok (s : String) : List Pat := [.lit s.data, .wb]

/-- Shorthand for a function-call token `name\s*\(`. -/
def fnTok (s : String) : List Pat := [.lit s.data, .ws0, .lit ['(']]

/-- Shorthand for a prefix token `name\w+`. -/
def pfxTok (s : String) : List Pat := [.lit s.data, .word1]

/-- The token list `_FORBIDDEN_TOKENS` of `sql_utils.py`, in source order. -/
def forbiddenTokens : List (List Pat) :=
  [ litTok ";"
  , litTok "--"
  , litTok "/*"
  , litTok "*/"
  , kwTok "drop"
  , kwTok "delete"
  , kwTok "truncate"
  , kwTok "insert"
  , kwTok "update"
  , kwTok "alter"
  , kwTok "create"
  , kwTok "grant"
  , kwTok "revoke"
  , kwTok "union"
  , kwTok "exec"
  , kwTok "execute"
  , pfxTok "sp_"
  , pfxTok "xp_"
  , kwTok "declare"
  , fnTok "char"
  , fnTok "ascii"
  , fnTok "substring"
  , fnTok "concat"
  , fnTok "cast"
  , fnTok "convert"
  , pfxTok "@@"
  , kwTok "waitfor"
  , kwTok "benchmark"
  , fnTok "sleep"
  , fnTok "pg_sleep"
  , pfxTok "dbms_"
  , pfxTok "utl_"
  , [.lit ['\''], .ws0, .lit "or".data, .ws0, .lit ['\''], .digits1, .lit ['\''],
     .ws0, .lit ['='], .ws0, .lit ['\''], .digits1, .optQuote]
  , [.ws1, .lit "or".data, .ws1, .digits1, .ws0, .lit ['='], .ws0, .digits1]
  , [.lit "or".data, .ws0, .lit ['\''], .digits1, .lit ['\''],
     .ws0, .lit ['='], .ws0, .lit ['\''], .digits1, .optQuote]
  , [.lit ['\''], .ws0, .lit "or".data, .ws0, .digits1, .ws0, .lit ['='], .ws0, .digits1]
  ]

/-- Model of `_FORBIDDEN_PATTERN.search(s)` returning whether a match exists. -/
def forbiddenSearch (s : List Char) : Bool :=
  forbiddenTokens.any (fun p => searchAt p s)

/-- Embedding of `is_safe_sql` (`sql_utils.py`, lines 52-71): the statement
is stripped and lower-cased, must start with `select`, and must not contain
any forbidden token. -/
def is_safe_sql (sql : String) : Bool :=
  let stripped := pyLower (pyStrip sql.data)
  if !(("select".data).isPrefixOf stripped) then false
  else if forbiddenSearch stripped then false
  else true

/-- The `injection_patterns` list of `validate_sql` (`sql_utils.py`,
lines 87-97), in source order. -/
def injectionPatterns : List (List Pat) :=
  [ [.lit ['\''], .ws0, .lit "or".data, .ws1, .lit ['\''], .digits1, .lit ['\''],
     .ws0, .lit ['='], .ws0, .lit ['\''], .digits1, .lit ['\'']]
  , [.lit ['\''], .ws0, .lit "or".data, .ws1, .digits1, .ws0, .lit ['='], .ws0, .digits1]
  , [.lit ['\''], .ws0, .lit "and".data, .ws1, .lit ['\''], .digits1, .lit ['\''],
     .ws0, .lit ['='], .ws0, .lit ['\''], .digits1, .lit ['\'']]
  , [.lit ['\''], .ws0, .lit [';'], .ws0, .lit "select".data, .ws1]
  , [.lit ['\''], .ws0, .lit "union".data, .ws1, .lit "all".data, .ws1, .lit "select".data, .ws1]
  , litTok "information_schema."
  , litTok "sys."
  , [.lit "dual".data, .ws1, .lit "where".data]
  , [.lit "from".data, .ws1, .lit "dual".data, .ws1, .lit "where".data]
  ]

/-- Embedding of `validate_sql` (`sql_utils.py`, lines 74-111).  The source
raises `HTTPException` with a detail message; the model returns
`some detail` for a rejection and `none` for acceptance. -/
def validate_sql (sql : String) : Option String :=
  if !(is_safe_sql sql) then
    some "Unsafe SQL detected. Only read-only SELECT queries are permitted."
  else
    let sql_lower := pyStrip (pyLower sql.data)
    if injectionPatterns.any (fun p => searchAt p sql_lower) then
      some "Potential SQL injection detected. Query rejected."
    else if 10000 < sql.data.length then
      some "Query too long. Maximum length is 10,000 characters."
    else none

/-- Embedding of `escape_literal` (`sql_utils.py`, lines 114-120): double
every single quote and wrap in single quotes.  The source uses
`value.replace("'", "''")`; with a one-character pattern this is exactly
the character-wise expansion below. -/
def escape_literal (value : String) : String :=
  "'" ++ String.mk (value.data.flatMap
    (fun c => if c = '\'' then ['\'', '\''] else [c])) ++ "'"

/-! ## Data model (`models.py`)

`FilterCondition.value` is `Union[str, int, float, List[Any]]` in the
source.  Integral and string values are modelled exactly; machine floats in
filter values are outside the model (no claim exercises them).  Database
cell values are modelled by `Value`: integral numbers, strings, and SQL
NULL / Python `None`. -/

inductive FilterValue where
  | str (s : String)
  | int (n : Int)
  | list (vs : List FilterValue)

/-- Python `repr` of a string: quoted with backslash escaping of the quote
character and of backslashes (the common case; the alternative-quote rule of
CPython for strings containing a single quote is not exercised here). -/
def pyReprStr (s : String) : String :=
  "'" ++ String.mk (s.data.flatMap
    (fun c => if c = '\'' || c = '\\' then ['\\', c] else [c])) ++ "'"

mutual

/-- Python `repr` of a filter value. -/
def pyReprFV : FilterValue → String
  | .str s => pyReprStr s
  | .int n => toString n
  | .list vs => "[" ++ strJoin ", " (pyReprFVList vs) ++ "]"

/-- Pointwise `repr` of a value list. -/
def pyReprFVList : List FilterValue → List String
  | [] => []
  | v :: vs => pyReprFV v :: pyReprFVList vs

end

/-- Python `str` of a filter value (`str()` on a list falls back to `repr`). -/
def pyStrFV : FilterValue → String
  | .str s => s
  | .int n => toString n
  | .list vs => pyReprFV (.list vs)

/-- Embedding of `FilterCondition` (`models.py`, lines 208-211).  The
`operator` field is a plain string: the pydantic model performs no
validation against the documented operator set. -/
structure FilterCondition where
  column : String
  operator : String
  value : FilterValue

/-- Embedding of `TableFilter` (`models.py`, lines 214-216). -/
structure TableFilter where
  conditions : List FilterCondition
  logic : String := "AND"

/-- Database cell values as they reach the shaping layer. -/
inductive Value where
  | int (n : Int)
  | str (s : String)
  | null
deriving DecidableEq

/-- Python `str()` of a cell value (`str(None)` is `"None"`). -/
def pyStrValue : Value → String
  | .int n => toString n
  | .str s => s
  | .null => "None"

/-- Parse the integral and decimal number formats accepted by Python
`float(...)` and `pandas.to_numeric` for the values this backend produces:
optional sign, digits, optional fractional digits.  Exponent and special
forms are outside the model; no claim exercises them. -/
def parseDecimal? (s : List Char) : Option ℚ :=
  let t := pyStrip s
  let (sign, u) : ℚ × List Char :=
    match t with
    | '-' :: r => (-1, r)
    | '+' :: r => (1, r)
    | _ => (1, t)
  let intPart := u.takeWhile Char.isDigit
  let rest := u.dropWhile Char.isDigit
  let digitsVal (ds : List Char) : ℚ :=
    (ds.foldl (fun a c => a * 10 + (c.toNat - 48)) 0 : Nat)
  match rest with
  | [] =>
      if intPart.isEmpty then none
      else some (sign * digitsVal intPart)
  | '.' :: frac =>
      if frac.all Char.isDigit && !(intPart.isEmpty && frac.isEmpty) then
        some (sign * (digitsVal intPart + digitsVal frac / (10 : ℚ) ^ frac.length))
      else none
  | _ => none

/-- Python `float(value)`: `none` models the `TypeError` / `ValueError`
raised on `None` and on non-numeric strings. -/
def pyFloat? : Value → Option ℚ
  | .int n => some (n : ℚ)
  | .str s => parseDecimal? s.data
  | .null => none

/-- Coercion `pd.to_numeric(col, errors="coerce").fillna(0)` applied to one
value: numbers pass through, everything else becomes `0`. -/
def toNumeric0 (v : Value) : ℚ :=
  (pyFloat? v).getD 0

/-- A pandas data frame as produced by `execute_query_pandas`: column names
and a row-major matrix (every row has one entry per column). -/
structure Frame where
  columns : List String
  rows : List (List Value)
deriving DecidableEq

/-- Pandas `DataFrame.empty`: true when either axis has length zero. -/
def Frame.isEmpty (df : Frame) : Bool :=
  df.rows.isEmpty || df.columns.isEmpty

/-- Drop the column at the first position named `name`, if present. -/
def Frame.dropColumn (df : Frame) (name : String) : Frame :=
  match df.columns.findIdx? (fun c => c == name) with
  | none => df
  | some i => ⟨df.columns.eraseIdx i, df.rows.map (fun r => r.eraseIdx i)⟩

/-- Value of row `r` at column index `i` (`iloc`); rows match the column
count, so the default is unreachable on frames built by the model. -/
def colValue (r : List Value) (i : Nat) : Value :=
  (r.get? i).getD .null

/-- Embedding of `TableData` (`models.py`, lines 176-179). -/
structure TableData where
  columns : List String
  data : List (List Value)
  total_count : Int
deriving DecidableEq

/-- Color field of a chart dataset: the pie/doughnut branches store a list
of colors, the bar/line and default branches a single color string. -/
inductive ColorSpec where
  | one (c : String)
  | many (cs : List String)
deriving DecidableEq

/-- A chart dataset dictionary; absent keys are `none`. -/
structure Dataset where
  label : Option String := none
  data : List ℚ := []
  backgroundColor : Option ColorSpec := none
  borderColor : Option String := none
  borderWidth : Option Nat := none
  fill : Option Bool := none
deriving DecidableEq

/-- Embedding of `ChartData` (`models.py`, lines 171-173). -/
structure ChartData where
  labels : List String
  datasets : List Dataset
deriving DecidableEq

/-- Payload of a successful query result. -/
inductive ResultData where
  | table (t : TableData)
  | chart (c : ChartData)
deriving DecidableEq

/-- Chart configuration dictionaries are opaque key/value pairs here. -/
abbrev ChartConfig := List (String × String)

/-- Embedding of `QueryResult` (`models.py`, lines 182-188).  The
`execution_time` wall-clock field is omitted from the model. -/
structure QueryResult where
  success : Bool
  data : Option ResultData := none
  chart_type : Option String := none
  chart_config : Option ChartConfig := none
  error : Option String := none
deriving DecidableEq

/-- Embedding of `FilteredQueryRequest` (`models.py`, lines 219-226). -/
structure FilteredQueryRequest where
  query_id : Option Nat := none
  sql_query : Option String := none
  filters : Option TableFilter := none
  limit : Int := 1000
  offset : Int := 0
  sort_column : Option String := none
  sort_direction : Option String := some "ASC"

/-! ## Filter compiler (`DataService.apply_filters`, `services.py` 354-398) -/

/-- The helper `_as_sql_literal`: numeric values are inlined unescaped,
all other values go through `escape_literal(str(value))`. -/
def asSqlLiteral : FilterValue → String
  | .int n => toString n
  | v => escape_literal (pyStrFV v)

/-- Render one condition exactly as the `if/elif` chain of `apply_filters`
does; `none` when no branch fires (unknown operator, or `in` whose value is
not a list) — the source appends nothing in that case. -/
def renderCondition (c : FilterCondition) : Option String :=
  let column := c.column
  let operator := String.mk (pyLower c.operator.data)
  let value := c.value
  if operator = "eq" then some (column ++ " = " ++ asSqlLiteral value)
  else if operator = "ne" then some (column ++ " != " ++ asSqlLiteral value)
  else if operator = "gt" then some (column ++ " > " ++ asSqlLiteral value)
  else if operator = "lt" then some (column ++ " < " ++ asSqlLiteral value)
  else if operator = "gte" then some (column ++ " >= " ++ asSqlLiteral value)
  else if operator = "lte" then some (column ++ " <= " ++ asSqlLiteral value)
  else if operator = "like" then
    some (column ++ " LIKE '%' || " ++ asSqlLiteral value ++ " || '%'")
  else if operator = "in" then
    match value with
    | .list vs => some (column ++ " IN (" ++ strJoin ", " (vs.map asSqlLiteral) ++ ")")
    | _ => none
  else none

/-- Embedding of `DataService.apply_filters`: join the rendered conditions
with the configured logic word; append with `AND (...)` when the upper-cased
base query contains the substring `WHERE`, else with `WHERE ...`. -/
def apply_filters (base_query : String) (filters : Option TableFilter) : String :=
  match filters with
  | none => base_query
  | some f =>
    if f.conditions.isEmpty then base_query
    else
      let where_conditions := f.conditions.filterMap renderCondition
      if where_conditions.isEmpty then base_query
      else
        let logic_operator := " " ++ f.logic ++ " "
        let where_clause := strJoin logic_operator where_conditions
        if containsSub "WHERE".data (pyUpper base_query.data) then
          base_query ++ " AND (" ++ where_clause ++ ")"
        else
          base_query ++ " WHERE " ++ where_clause

/-! ## Query execution orchestrator (`services.py`)

The database driver is modelled as an oracle `Db` mapping each SQL text
(and timeout argument) to the outcome the call would produce.  An exception
raised by the driver is either a `TimeoutError` or a generic exception
whose `str(e)` is the carried message.  `QueryService.get_query_by_id`
(which swallows its own errors and returns `None` on any failure) is
modelled as a lookup returning the stored SQL text. -/

/-- A Python exception as observed by the `except` clauses of the source:
either a `TimeoutError` or any other exception, with its `str(e)` text. -/
inductive PyExc where
  | timeout (msg : String)
  | dbError (msg : String)
deriving DecidableEq

/-- Python `str(e)` of a modelled exception. -/
def PyExc.str : PyExc → String
  | .timeout m => m
  | .dbError m => m

/-- The database oracle.  `execute_query_pandas` returns frames,
`execute_query` returns rows as dictionaries (the pipeline only consumes
its numeric count values), `get_query_by_id` resolves a saved query to its
SQL text (`none` both for a missing id and for a swallowed driver error,
exactly as `QueryService.get_query_by_id` behaves). -/
structure Db where
  execute_query_pandas : String → Option Nat → Except PyExc Frame
  execute_query : String → Option Nat → Except PyExc (List (List (String × Int)))
  get_query_by_id : Nat → Option String

/-- Dictionary lookup on a row. -/
def rowGet (row : List (String × Int)) (key : String) : Option Int :=
  (row.find? (fun p => p.1 == key)).map Prod.snd

/-- The four fixed user-facing messages of the error taxonomy, plus the
classifier that sniffs the vendor error text (`services.py`, lines 80-86
and, duplicated verbatim, lines 162-168). -/
def msgSyntax : String := "SQL syntax error: Please check your query syntax."

/-- Taxonomy message for a missing table or view. -/
def msgTable : String := "Table or view not found. Please verify the table name."

/-- Taxonomy message for a missing column. -/
def msgColumn : String := "Column not found. Please verify the column names."

/-- Generic taxonomy message (also the initial value of `error_msg`). -/
def msgGeneric : String := "Query execution failed. Please check your SQL syntax and try again."

/-- The four-message taxonomy as a list. -/
def taxonomyMessages : List String := [msgSyntax, msgTable, msgColumn, msgGeneric]

/-- Vendor error-code sniffing of the generic `except Exception` handlers. -/
def classifyDbError (m : String) : String :=
  if strContains m "ORA-00907" || strContains m "ORA-00936"
      || strContains m "missing right parenthesis" then msgSyntax
  else if strContains m "ORA-00942" || strContains m "table or view does not exist" then msgTable
  else if strContains m "ORA-00904" || strContains m "invalid identifier" then msgColumn
  else msgGeneric

/-- Timeout message of the chart path (`services.py`, line 75). -/
def chartTimeoutMsg (timeout : Nat) : String :=
  "Query timed out after " ++ toString timeout
    ++ " seconds. Try reducing data range or complexity."

/-- Timeout message of the table path (`services.py`, line 157). -/
def tableTimeoutMsg (timeout : Nat) : String :=
  "Query timed out after " ++ toString timeout
    ++ " seconds. Try reducing data range or adding more specific filters."

/-- The Oracle 11g ROWNUM pagination wrapper, exactly the triple-quoted
f-string of `services.py` lines 100-106 (and 212-218), indentation and
newlines included. -/
def paginatedQuery (query : String) (limit offset : Int) : String :=
  "\n            SELECT * FROM (\n                SELECT a.*, ROWNUM rnum FROM (\n                    "
    ++ query
    ++ "\n                ) a WHERE ROWNUM <= " ++ toString (limit + offset)
    ++ "\n            ) WHERE rnum > " ++ toString offset
    ++ "\n            "

/-- The count wrapper `SELECT COUNT(*) as total_count FROM (<q>) sub`. -/
def countQuery (query : String) : String :=
  "SELECT COUNT(*) as total_count FROM (" ++ query ++ ") sub"

/-- The zero-row structure probe `SELECT * FROM (<q>) WHERE 1=0`. -/
def structureQuery (query : String) : String :=
  "SELECT * FROM (" ++ query ++ ") WHERE 1=0"

/-- The RNUM-dropping step of both table paths (`services.py` 111-114 and
223-226): drop the column named `RNUM`, else the one named `rnum`, when the
frame is non-empty. -/
def dropRnum (df : Frame) : Frame :=
  if !df.isEmpty && df.columns.contains "RNUM" then df.dropColumn "RNUM"
  else if !df.isEmpty && df.columns.contains "rnum" then df.dropColumn "rnum"
  else df

/-- The empty-result structure fetch of both table paths (`services.py`
116-126 and 228-237): when the frame is empty, probe the zero-row variant
for its column headers; any exception there is swallowed. -/
def fetchStructure (db : Db) (baseForStructure : String) (df : Frame) : Frame :=
  if df.isEmpty then
    match db.execute_query_pandas (structureQuery baseForStructure) (some 10) with
    | .ok sdf => if 0 < sdf.columns.length then ⟨sdf.columns, []⟩ else df
    | .error _ => df
  else df

/-- Fixed color palette of `_generate_colors` (`services.py`, 334-352). -/
def baseColors : List String :=
  [ "#FF6384", "#36A2EB", "#FFCE56", "#4BC0C0", "#9966FF",
    "#FF9F40", "#FF6384", "#C9CBCF", "#4BC0C0", "#FF6384" ]

/-- Embedding of `_generate_colors`: cycle through the palette. -/
def generateColors (count : Nat) : List String :=
  (List.range count).map (fun i => (baseColors.get? (i % baseColors.length)).getD "")

/-- Column `i` of a frame as a value list. -/
def Frame.col (df : Frame) (i : Nat) : List Value :=
  df.rows.map (fun r => colValue r i)

/-- Embedding of `_format_chart_data` (`services.py`, lines 256-331).  The
source is only invoked on non-empty frames (both axes non-trivial), where
none of its pandas indexing can raise. -/
def formatChartData (df : Frame) (chart_type : Option String) : ChartData :=
  if chart_type = some "pie" || chart_type = some "doughnut" then
    if 2 ≤ df.columns.length then
      let labels := (df.col 0).map pyStrValue
      let values := (df.col 1).map toNumeric0
      ⟨labels, [{ data := values,
                  backgroundColor := some (.many (generateColors labels.length)),
                  borderWidth := some 1 }]⟩
    else
      let labels := (List.range df.rows.length).map toString
      let values := (df.col 0).map toNumeric0
      ⟨labels, [{ data := values,
                  backgroundColor := some (.many (generateColors labels.length)),
                  borderWidth := some 1 }]⟩
  else if chart_type = some "bar" || chart_type = some "line" then
    let labels := (df.col 0).map pyStrValue
    let colors := generateColors (df.columns.length - 1)
    let datasets := (df.columns.drop 1).enum.map (fun ci =>
      let i := ci.1
      let safe_label :=
        if (pyStrip ci.2.data).isEmpty then "Series " ++ toString (i + 1) else ci.2
      let color := (colors.get? (i % colors.length)).getD ""
      { label := some safe_label,
        data := (df.col (i + 1)).map toNumeric0,
        borderColor := some color,
        backgroundColor := some (.one (color ++ "80")),
        borderWidth := some 2,
        fill := if chart_type = some "line" then some false else none })
    ⟨labels, datasets⟩
  else
    let labels := (df.col 0).map pyStrValue
    let values := if 1 < df.columns.length then (df.col 1).map toNumeric0 else []
    let default_label :=
      if 1 < df.columns.length && !(pyStrip ((df.columns.get? 1).getD "").data).isEmpty
      then (df.columns.get? 1).getD "" else "Value"
    ⟨labels, [{ label := some default_label, data := values,
                backgroundColor := some (.one ((generateColors 1).headD "")),
                borderWidth := some 1 }]⟩

/-- Embedding of `DataService.execute_query_for_chart` (`services.py`,
lines 31-89).  The KPI branch takes the first column of the first row and
coerces it with `float(...)`, any coercion failure yielding `0`; exceptions
raised by the driver reach the two `except` handlers. -/
def execute_query_for_chart (db : Db) (query : String)
    (chart_type : Option String := none) (chart_config : Option ChartConfig := none)
    (timeout : Nat := 45) : QueryResult :=
  match db.execute_query_pandas query (some timeout) with
  | .error (.timeout _) =>
      { success := false, error := some (chartTimeoutMsg timeout) }
  | .error (.dbError m) =>
      { success := false, error := some (classifyDbError m) }
  | .ok df =>
      if df.isEmpty then
        { success := false, error := some "Query returned no data" }
      else
        let chart_data :=
          if chart_type = some "kpi" then
            let first_val : Value :=
              match df.rows.head? with
              | some r => match r.head? with | some v => v | none => .null
              | none => .null
            ChartData.mk ["KPI"] [{ data := [(pyFloat? first_val).getD 0] }]
          else formatChartData df chart_type
        { success := true, data := some (.chart chart_data),
          chart_type := chart_type, chart_config := some (chart_config.getD []) }

/-- Message of the `NameError` raised inside the count fallback handler of
`execute_query_for_table` when `count_result` was never bound (the count
query itself raised, so the assignment on line 131 did not run). -/
def nameErrorCountResult : String := "name 'count_result' is not defined"

/-- Embedding of `DataService.execute_query_for_table` (`services.py`,
lines 91-171).  The count block mirrors the source exactly: on success the
`total_count` key is read (falling back, via the `except Exception`
handler, to `TOTAL_COUNT` when that subscript raises `KeyError`); on a
count timeout the page length plus offset is used; on any other count
failure the handler dereferences the unbound local `count_result`, so the
resulting `NameError` propagates to the outer handler. -/
def execute_query_for_table (db : Db) (query : String)
    (limit : Int := 1000) (offset : Int := 0) (timeout : Nat := 45) : QueryResult :=
  match db.execute_query_pandas (paginatedQuery query limit offset) (some timeout) with
  | .error (.timeout _) =>
      { success := false, error := some (tableTimeoutMsg timeout) }
  | .error (.dbError m) =>
      { success := false, error := some (classifyDbError m) }
  | .ok df0 =>
      let df := fetchStructure db query (dropRnum df0)
      match db.execute_query (countQuery query) (some (min timeout 30)) with
      | .ok count_result =>
          let total_count : Int :=
            match count_result.head? with
            | none => 0
            | some row =>
                match rowGet row "total_count" with
                | some v => v
                | none => (rowGet row "TOTAL_COUNT").getD 0
          { success := true,
            data := some (.table ⟨df.columns, df.rows, total_count⟩) }
      | .error (.timeout _) =>
          { success := true,
            data := some (.table ⟨df.columns, df.rows, (df.rows.length : Int) + offset⟩) }
      | .error (.dbError _) =>
          { success := false, error := some (classifyDbError nameErrorCountResult) }

/-- Python truthiness of `Optional[int]` (`None` and `0` are falsy). -/
def truthyNat : Option Nat → Bool
  | some n => n ≠ 0
  | none => false

/-- Python truthiness of `Optional[str]` (`None` and `""` are falsy). -/
def truthyStr : Option String → Bool
  | some s => !s.isEmpty
  | none => false

/-- Sort-column sanitization of `execute_filtered_query` (`services.py`,
line 206): keep only alphanumeric and underscore characters. -/
def safeSortColumn (s : String) : String :=
  String.mk (s.data.filter (fun c => c.isAlphanum || c = '_'))

/-- The `ORDER BY` step of `execute_filtered_query` (lines 204-209). -/
def applySort (filtered_query : String)
    (sort_column sort_direction : Option String) : String :=
  if truthyStr sort_column then
    let direction :=
      match sort_direction with
      | some d => if String.mk (pyUpper d.data) = "DESC" then "DESC" else "ASC"
      | none => "ASC"
    filtered_query ++ " ORDER BY " ++ safeSortColumn ((sort_column).getD "")
      ++ " " ++ direction
  else filtered_query

/-- Body of `execute_filtered_query` up to its blanket `except Exception`
handler; a thrown `String` is the `str(e)` the handler would observe.
`validate_sql` raises `HTTPException(400, detail)`, whose `str` is
`"400: " ++ detail`. -/
def efqBody (db : Db) (request : FilteredQueryRequest) : Except String QueryResult := do
  let base_query ←
    if truthyNat request.query_id then
      match db.get_query_by_id (request.query_id.getD 0) with
      | none => throw "Query not found"
      | some sql => pure (String.mk (rstripSemis (pyStrip sql.data)))
    else if truthyStr request.sql_query then
      pure (String.mk (rstripSemis (pyStrip (request.sql_query.getD "").data)))
    else throw "Either query_id or sql_query must be provided"
  match validate_sql base_query with
  | some detail => throw ("400: " ++ detail)
  | none => pure ()
  let filtered_query := apply_filters base_query request.filters
  let count_result ←
    match db.execute_query (countQuery filtered_query) none with
    | .ok rows => pure rows
    | .error e => throw e.str
  let total_count : Int :=
    match count_result.head? with
    | none => 0
    | some row =>
        match rowGet row "total_count" with
        | some v => if v ≠ 0 then v else ((rowGet row "TOTAL_COUNT").filter (· ≠ 0)).getD 0
        | none => ((rowGet row "TOTAL_COUNT").filter (· ≠ 0)).getD 0
  let sorted_query := applySort filtered_query request.sort_column request.sort_direction
  let df0 ←
    match db.execute_query_pandas (paginatedQuery sorted_query request.limit request.offset) none with
    | .ok df => pure df
    | .error e => throw e.str
  let df := fetchStructure db filtered_query (dropRnum df0)
  pure { success := true, data := some (.table ⟨df.columns, df.rows, total_count⟩) }

/-- Embedding of `DataService.execute_filtered_query` (`services.py`,
lines 173-253).  Every exception is caught by the blanket handler, which
returns a failure result carrying the raw `str(e)` text. -/
def execute_filtered_query (db : Db) (request : FilteredQueryRequest) : QueryResult :=
  match efqBody db request with
  | .ok r => r
  | .error msg => { success := false, error := some msg }

/-! ## Spreadsheet comparator (`routers/excel_compare.py`)

A sheet is modelled by its openpyxl extent (`max_row`, `max_column`, both
at least 1 for any loaded sheet) and a cell map; a cell value is `none` for
an empty cell / Python `None` and otherwise carries its `str()` rendering
(the comparison is purely string-based).  A workbook is its ordered list of
named sheets; openpyxl sheet names are unique within a workbook.  The
Python set operations on sheet-name sets, whose iteration order is
unspecified, are modelled in file order. -/

structure Sheet where
  maxRow : Nat
  maxCol : Nat
  cell : Nat → Nat → Option String

/-- One cell-level diff record as appended by `compare_sheets`. -/
structure CellDiff where
  sheet : String
  cell_id : String
  value1 : String
  value2 : String
  status : String
deriving DecidableEq

/-- One per-sheet result dictionary of the comparison. -/
structure SheetResult where
  sheet : String
  cell_id : String
  value1 : String
  value2 : String
  status : String
  differences : List CellDiff
deriving DecidableEq

/-- Structural helper for the bijective base-26 column letters; the fuel
bounds the recursion depth and is never exhausted when it starts at `n`,
since the column index strictly decreases. -/
def colLettersAux (fuel n : Nat) : String :=
  match fuel, n with
  | _, 0 => ""
  | 0, _ + 1 => ""
  | f + 1, m + 1 => colLettersAux f (m / 26) ++ String.singleton (Char.ofNat (65 + m % 26))

/-- Embedding of `openpyxl.utils.get_column_letter`: bijective base-26
column letters (`1 ↦ A`, `26 ↦ Z`, `27 ↦ AA`, ...). -/
def colLetters (n : Nat) : String :=
  colLettersAux n n

/-- The per-cell string read of `compare_sheets` (lines 296-320): a cell is
read only when the position lies within the extent of that sheet, `None`
and out-of-extent positions normalize to the empty string, and the value is
compared by its string rendering. -/
def cellStrAt (sh : Sheet) (row col : Nat) : String :=
  if row ≤ sh.maxRow && col ≤ sh.maxCol then (sh.cell row col).getD "" else ""

/-- Row-major walk order of the bounding rectangle (1-based). -/
def cellPositions (maxRow maxCol : Nat) : List (Nat × Nat) :=
  (List.range' 1 maxRow).flatMap (fun r => (List.range' 1 maxCol).map (fun c => (r, c)))

/-- One step of the diff-collection loop of `compare_sheets` (lines
293-343).  The state is the collected diff list plus a stopped flag: once a
mismatch is found while the list already holds `max_differences` records,
the inner and outer loops both break, so no later position is processed. -/
def diffStep (sheet1 sheet2 : Sheet) (sheet_name : String) (max_differences : Nat)
    (st : List CellDiff × Bool) (pos : Nat × Nat) : List CellDiff × Bool :=
  if st.2 then st
  else
    let v1 := cellStrAt sheet1 pos.1 pos.2
    let v2 := cellStrAt sheet2 pos.1 pos.2
    if v1 ≠ v2 then
      if max_differences ≤ st.1.length then (st.1, true)
      else
        (st.1 ++ [⟨sheet_name, colLetters pos.2 ++ toString pos.1,
                   strTake v1 100, strTake v2 100, "not matched"⟩], false)
    else st

/-- Embedding of `compare_sheets` (`excel_compare.py`, lines 257-375).  In
this pure model no cell read raises, so the `comparison_error` branch of
the source is unreachable. -/
def compare_sheets (sheet1 sheet2 : Sheet) (sheet_name : String)
    (max_differences : Nat := 1000) : SheetResult :=
  if sheet1.maxRow = 1 ∧ sheet1.maxCol = 1 ∧ sheet1.cell 1 1 = none ∧
     sheet2.maxRow = 1 ∧ sheet2.maxCol = 1 ∧ sheet2.cell 1 1 = none then
    ⟨sheet_name, "NA", "Empty sheet", "Empty sheet", "matched", []⟩
  else
    let max_row0 := max sheet1.maxRow sheet2.maxRow
    let max_col := max sheet1.maxCol sheet2.maxCol
    let max_row := if 1000000 < max_row0 * max_col then min max_row0 1000 else max_row0
    let differences :=
      ((cellPositions max_row max_col).foldl
        (diffStep sheet1 sheet2 sheet_name max_differences) ([], false)).1
    if differences.isEmpty then
      ⟨sheet_name, "NA", "NA", "NA", "matched", []⟩
    else
      ⟨sheet_name, "multiple", "multiple", "multiple", "not matched", differences⟩

/-- A workbook: ordered, uniquely named sheets. -/
structure Workbook where
  sheets : List (String × Sheet)

/-- The `sheetnames` list. -/
def Workbook.sheetnames (wb : Workbook) : List String :=
  wb.sheets.map Prod.fst

/-- Sheet access `workbook[name]`; the fallback is unreachable under the
membership guard of the comparison loop. -/
def Workbook.getSheet (wb : Workbook) (name : String) : Sheet :=
  match wb.sheets.find? (fun p => p.1 == name) with
  | some p => p.2
  | none => ⟨1, 1, fun _ _ => none⟩

/-- Outcome structure of `compare_excel_files` (the `summary` prose string
and the `files_info` echo of the upload metadata are omitted). -/
structure CompareOutcome where
  success : Bool
  total_sheets : Nat
  matched_sheets : Nat
  comparison_results : List SheetResult
deriving DecidableEq

/-- The comparison and aggregation block of `compare_excel_files`
(`excel_compare.py`, lines 175-241), for a given `sheets_to_compare`
list. -/
def compareCore (wb1 wb2 : Workbook) (sheets_to_compare : List String) : CompareOutcome :=
  let loopResults := sheets_to_compare.map (fun sheet_name =>
    if wb1.sheetnames.contains sheet_name && wb2.sheetnames.contains sheet_name then
      compare_sheets (wb1.getSheet sheet_name) (wb2.getSheet sheet_name) sheet_name
    else
      ⟨sheet_name, "NA",
        (if wb1.sheetnames.contains sheet_name then "sheet exists" else "sheet missing"),
        (if wb2.sheetnames.contains sheet_name then "sheet exists" else "sheet missing"),
        "sheet_mismatch", []⟩)
  let matched_sheets := (loopResults.filter (fun r => r.status == "matched")).length
  let sheets1_only := wb1.sheetnames.filter (fun n => !wb2.sheetnames.contains n)
  let sheets2_only := wb2.sheetnames.filter (fun n => !wb1.sheetnames.contains n)
  let missing2 : List SheetResult := sheets1_only.map (fun n =>
    ⟨n, "NA", "sheet exists", "sheet missing", "sheet_missing_in_file2", []⟩)
  let missing1 : List SheetResult := sheets2_only.map (fun n =>
    ⟨n, "NA", "sheet missing", "sheet exists", "sheet_missing_in_file1", []⟩)
  let success := matched_sheets == sheets_to_compare.length
    && sheets1_only.isEmpty && sheets2_only.isEmpty
  { success := success,
    total_sheets := sheets_to_compare.length + sheets1_only.length + sheets2_only.length,
    matched_sheets := matched_sheets,
    comparison_results := loopResults ++ missing2 ++ missing1 }

/-- Embedding of the sheet-alignment and comparison logic of
`compare_excel_files` (`excel_compare.py`, lines 153-241), starting from
the two loaded workbooks: with equally many sheets the first file's sheet
list is walked; otherwise only the common sheets are, and the call raises
(`.error`) when there is no common sheet. -/
def compare_excel_files (wb1 wb2 : Workbook) : Except String CompareOutcome :=
  let sheets1 := wb1.sheetnames
  let sheets2 := wb2.sheetnames
  if sheets1.length ≠ sheets2.length then
    let common := sheets1.filter (fun n => sheets2.contains n)
    if common.isEmpty then .error "No common sheets found between files."
    else .ok (compareCore wb1 wb2 common)
  else .ok (compareCore wb1 wb2 sheets1)

/-! ## Claims about the filter compiler -/

/-- C2 counterexample: on the WHERE-less base `SELECT * FROM app_users`,
the single condition `role eq ADMIN` with logic `AND` compiles to
`... WHERE role = 'ADMIN'` — without the parentheses the claim asserts. -/
theorem c2_where_unparenthesized_counterexample :
    apply_filters "SELECT * FROM app_users"
        (some ⟨[⟨"role", "eq", FilterValue.str "ADMIN"⟩], "AND"⟩)
      = "SELECT * FROM app_users WHERE role = 'ADMIN'" ∧
    apply_filters "SELECT * FROM app_users"
        (some ⟨[⟨"role", "eq", FilterValue.str "ADMIN"⟩], "AND"⟩)
      ≠ "SELECT * FROM app_users WHERE (role = 'ADMIN')" := by
  constructor <;> decide

/-- C2 (amended): filter compilation on a base query whose upper-cased text
does not contain `WHERE` appends the joined conditions as `WHERE ...`
without parentheses (only the `AND (...)` branch parenthesizes), and the
concrete scenario produces exactly
`SELECT * FROM app_users WHERE role = 'ADMIN'`. -/
theorem c2_where_branch_appends_unparenthesized :
    (∀ (base : String) (f : TableFilter),
        (f.conditions.filterMap renderCondition).isEmpty = false →
        containsSub "WHERE".data (pyUpper base.data) = false →
        apply_filters base (some f)
          = base ++ " WHERE "
              ++ strJoin (" " ++ f.logic ++ " ") (f.conditions.filterMap renderCondition)) ∧
    apply_filters "SELECT * FROM app_users"
        (some ⟨[⟨"role", "eq", FilterValue.str "ADMIN"⟩], "AND"⟩)
      = "SELECT * FROM app_users WHERE role = 'ADMIN'" := by
  constructor
  · intro base f h1 h2
    have hne : f.conditions.isEmpty = false := by
      cases hc : f.conditions with
      | nil => rw [hc] at h1; simp [List.filterMap] at h1
      | cons c cs => simp [List.isEmpty]
    unfold apply_filters
    simp only [hne, h1, h2, Bool.false_eq_true, if_false]
  · decide

/-- C2 witness: the unparenthesized-WHERE branch at a concrete input. -/
theorem c2_where_branch_appends_unparenthesized_witness :
    apply_filters "SELECT x FROM t"
        (some ⟨[⟨"c", "eq", FilterValue.str "v"⟩], "AND"⟩)
      = "SELECT x FROM t" ++ " WHERE "
          ++ strJoin " AND " ["c = 'v'"] :=
  c2_where_branch_appends_unparenthesized.1 "SELECT x FROM t"
    ⟨[⟨"c", "eq", FilterValue.str "v"⟩], "AND"⟩ (by decide) (by decide)

/-- Database oracle on which every count query succeeds with one row and
every pandas query returns a one-row frame; used to show that malformed
filter conditions do not stop execution. -/
def plainOkDb : Db :=
  { execute_query_pandas := fun _ _ => .ok ⟨["A"], [[.int 7]]⟩,
    execute_query := fun _ _ => .ok [[("total_count", 1)]],
    get_query_by_id := fun _ => none }

/-- A filtered-query request whose single condition carries the unknown
operator `foo`. -/
def malformedOpReq : FilteredQueryRequest :=
  { sql_query := some "SELECT A FROM T",
    filters := some ⟨[⟨"c", "foo", FilterValue.str "v"⟩], "AND"⟩ }

/-- C3 counterexample: a request whose filter condition has a malformed
operator is not rejected — the condition is silently dropped and the query
executes successfully, returning data. -/
theorem c3_malformed_operator_not_rejected_counterexample :
    (execute_filtered_query plainOkDb malformedOpReq).success = true ∧
    (execute_filtered_query plainOkDb malformedOpReq).error = none ∧
    (execute_filtered_query plainOkDb malformedOpReq).data
      = some (.table ⟨["A"], [[.int 7]], 1⟩) := by
  refine ⟨?_, ?_, ?_⟩ <;> decide

/-- C3 (amended): a condition whose operator (lower-cased) is outside
{eq, ne, gt, lt, gte, lte, like, in}, or whose operator is `in` with a
non-list value, is silently dropped by the filter compiler: the base query
is returned unchanged and executed without any rejection. -/
theorem c3_malformed_condition_silently_dropped :
    ∀ (base : String) (c : FilterCondition) (lg : String),
      (String.mk (pyLower c.operator.data) ∉
          (["eq", "ne", "gt", "lt", "gte", "lte", "like", "in"] : List String) ∨
        (String.mk (pyLower c.operator.data) = "in" ∧ ∀ vs, c.value ≠ .list vs)) →
      apply_filters base (some ⟨[c], lg⟩) = base := by
  intro base c lg h
  have hrc : renderCondition c = none := by
    unfold renderCondition
    rcases h with h | ⟨hin, hv⟩
    · simp only [List.mem_cons, List.not_mem_nil, or_false, not_or] at h
      obtain ⟨h1, h2, h3, h4, h5, h6, h7, h8⟩ := h
      simp only [h1, h2, h3, h4, h5, h6, h7, h8, if_false]
    · simp only [hin]
      norm_num
      cases hval : c.value with
      | list vs => exact absurd hval (hv vs)
      | str s => rfl
      | int n => rfl
  unfold apply_filters
  simp [List.filterMap, hrc]

/-- C3 witness: the unknown operator `foo` leaves the base query intact. -/
theorem c3_malformed_condition_silently_dropped_witness :
    apply_filters "SELECT A FROM T"
        (some ⟨[⟨"c", "foo", FilterValue.str "v"⟩], "AND"⟩) = "SELECT A FROM T" :=
  c3_malformed_condition_silently_dropped "SELECT A FROM T"
    ⟨"c", "foo", FilterValue.str "v"⟩ "AND" (Or.inl (by decide))

/-! ## Claims about the SQL safety validator -/

/-- Characterization of the boolean `isPrefixOf` by list decomposition. -/
theorem isPrefixOf_append_iff (l : List Char) :
    ∀ t, l.isPrefixOf t = true ↔ ∃ r, t = l ++ r := by
  induction l with
  | nil => intro t; simp [List.isPrefixOf]
  | cons a as ih =>
    intro t
    cases t with
    | nil => simp [List.isPrefixOf]
    | cons b bs =>
      simp only [List.isPrefixOf, Bool.and_eq_true, beq_iff_eq, ih]
      constructor
      · rintro ⟨rfl, r, rfl⟩; exact ⟨r, rfl⟩
      · rintro ⟨r, h⟩
        injection h with h1 h2
        exact ⟨h1.symm, r, h2⟩

/-- Removal of a single trailing statement separator, the normalization the
specification describes for the validator claims (stated on the already
stripped and lower-cased text; the operations commute). -/
def removeOneTrailingSemi (s : List Char) : List Char :=
  if s.getLast? = some ';' then s.dropLast else s

/-- A `select` prefix survives the removal of one trailing semicolon. -/
theorem select_isPrefixOf_removeOneTrailingSemi (t : List Char)
    (h : ("select".data).isPrefixOf t = true) :
    ("select".data).isPrefixOf (removeOneTrailingSemi t) = true := by
  obtain ⟨r, rfl⟩ := (isPrefixOf_append_iff _ t).mp h
  unfold removeOneTrailingSemi
  cases r with
  | nil =>
    rw [List.append_nil]
    rw [if_neg (by decide)]
    decide
  | cons x xs =>
    by_cases hl : (("select".data) ++ (x :: xs)).getLast? = some ';'
    · rw [if_pos hl, List.dropLast_append_of_ne_nil _ (List.cons_ne_nil x xs)]
      exact (isPrefixOf_append_iff _ _).mpr ⟨_, rfl⟩
    · rw [if_neg hl]
      exact (isPrefixOf_append_iff _ _).mpr ⟨_, rfl⟩

/-- C5: any SQL text that, after trimming whitespace and removing one
trailing statement separator, does not begin with `select`
(case-insensitively) is rejected by `is_safe_sql`. -/
theorem c5_non_select_rejected (sql : String)
    (h : ("select".data).isPrefixOf
        (removeOneTrailingSemi (pyLower (pyStrip sql.data))) = false) :
    is_safe_sql sql = false := by
  have hp : ("select".data).isPrefixOf (pyLower (pyStrip sql.data)) = false := by
    cases hpv : ("select".data).isPrefixOf (pyLower (pyStrip sql.data)) with
    | false => rfl
    | true =>
      have hkeep := select_isPrefixOf_removeOneTrailingSemi _ hpv
      rw [hkeep] at h
      cases h
  simp [is_safe_sql, hp]

/-- C5 witness: a DML statement is rejected. -/
theorem c5_non_select_rejected_witness : is_safe_sql "delete from t" = false :=
  c5_non_select_rejected "delete from t" (by decide)

/-- Membership survives `dropWhile` for elements the predicate refuses. -/
theorem mem_dropWhile_of_mem {p : Char → Bool} {c : Char} {l : List Char}
    (hm : c ∈ l) (hp : p c = false) : c ∈ l.dropWhile p := by
  have hsplit : l.takeWhile p ++ l.dropWhile p = l := List.takeWhile_append_dropWhile p l
  rw [← hsplit] at hm
  rcases List.mem_append.mp hm with h | h
  · have := List.mem_takeWhile_imp h
    rw [hp] at this
    cases this
  · exact h

/-- Non-whitespace characters survive Python `strip`. -/
theorem mem_pyStrip {c : Char} {s : List Char}
    (hm : c ∈ s) (hp : pyIsSpace c = false) : c ∈ pyStrip s := by
  unfold pyStrip
  exact List.mem_reverse.mpr
    (mem_dropWhile_of_mem (List.mem_reverse.mpr (mem_dropWhile_of_mem hm hp)) hp)

/-- A semicolon survives Python `lower`. -/
theorem semicolon_mem_pyLower {s : List Char} (hm : ';' ∈ s) : ';' ∈ pyLower s := by
  unfold pyLower
  have h := List.mem_map_of_mem Char.toLower hm
  rwa [show Char.toLower ';' = ';' from by decide] at h

/-- A match at any suffix makes the search succeed. -/
theorem searchAt_of_matchPats_suffix (p : List Pat) :
    ∀ (pre rest : List Char), matchPats p rest = true → searchAt p (pre ++ rest) = true := by
  intro pre
  induction pre with
  | nil =>
    intro rest h
    cases rest with
    | nil => simpa [searchAt] using h
    | cons x t => simp [searchAt, h]
  | cons a pr ih =>
    intro rest h
    simp [searchAt, ih rest h]

/-- The single-character token `;` is found whenever the text contains a
semicolon. -/
theorem searchAt_semicolon {s : List Char} (hm : ';' ∈ s) :
    searchAt (litTok ";") s = true := by
  obtain ⟨pre, post, rfl⟩ := List.append_of_mem hm
  apply searchAt_of_matchPats_suffix _ pre
  simp [matchPats, litTok, List.isPrefixOf]

/-- A hit of any forbidden token makes `forbiddenSearch` succeed. -/
theorem forbiddenSearch_of_token {tok : List Pat} {s : List Char}
    (hmem : tok ∈ forbiddenTokens) (hs : searchAt tok s = true) :
    forbiddenSearch s = true :=
  List.any_eq_true.mpr ⟨tok, hmem, hs⟩

/-- A forbidden-token hit on the normalized text forces rejection,
whatever the `select`-prefix check says. -/
theorem is_safe_sql_eq_false_of_forbidden {sql : String}
    (h : forbiddenSearch (pyLower (pyStrip sql.data)) = true) :
    is_safe_sql sql = false := by
  cases hp : ("select".data).isPrefixOf (pyLower (pyStrip sql.data)) with
  | false => simp [is_safe_sql, hp]
  | true => simp [is_safe_sql, hp, h]

/-- A keyword token `kw\b` matches at the start of `kw ++ post` whenever
`post` does not begin with a word character. -/
theorem matchPats_kw (vb post : List Char)
    (hpost : ∀ c, post.head? = some c → isWordChar c = false) :
    matchPats [.lit vb, .wb] (vb ++ post) = true := by
  have h1 : vb.isPrefixOf (vb ++ post) = true := (isPrefixOf_append_iff vb _).mpr ⟨post, rfl⟩
  simp only [matchPats, h1, List.drop_left, Bool.true_and, Bool.and_true]
  cases post with
  | nil => rfl
  | cons c cs => simp [hpost c rfl]

/-- The DML/DDL verbs named by the claim, as character lists. -/
def dmlVerbTexts : List (List Char) :=
  [ "insert".data, "update".data, "delete".data, "drop".data, "truncate".data,
    "alter".data, "create".data, "grant".data, "revoke".data ]

/-- C6: any SQL text containing a statement separator, or containing one of
the DML/DDL verbs as a whole word (in its normalized form, with no word
character following the occurrence), is rejected by `is_safe_sql` — even
when it begins with `select`. -/
theorem c6_separator_or_dml_verb_rejected :
    (∀ sql : String, ';' ∈ sql.data → is_safe_sql sql = false) ∧
    (∀ (sql : String) (vb pre post : List Char), vb ∈ dmlVerbTexts →
      pyLower (pyStrip sql.data) = pre ++ vb ++ post →
      (∀ c, post.head? = some c → isWordChar c = false) →
      is_safe_sql sql = false) := by
  constructor
  · intro sql hm
    apply is_safe_sql_eq_false_of_forbidden
    exact forbiddenSearch_of_token
      (show litTok ";" ∈ forbiddenTokens by decide)
      (searchAt_semicolon (semicolon_mem_pyLower (mem_pyStrip hm (by decide))))
  · intro sql vb pre post hvb heq hpost
    apply is_safe_sql_eq_false_of_forbidden
    have hmem : ([.lit vb, .wb] : List Pat) ∈ forbiddenTokens := by
      simp only [dmlVerbTexts, List.mem_cons, List.not_mem_nil, or_false] at hvb
      rcases hvb with rfl | rfl | rfl | rfl | rfl | rfl | rfl | rfl | rfl <;> decide
    apply forbiddenSearch_of_token hmem
    rw [heq, List.append_assoc]
    exact searchAt_of_matchPats_suffix _ pre _ (matchPats_kw vb post hpost)

/-- C6 witness: a semicolon-bearing SELECT and a whole-word `drop` inside a
SELECT are both rejected. -/
theorem c6_separator_or_dml_verb_rejected_witness :
    is_safe_sql "select 1; x" = false ∧ is_safe_sql "select x drop" = false :=
  ⟨c6_separator_or_dml_verb_rejected.1 "select 1; x" (by decide),
   c6_separator_or_dml_verb_rejected.2 "select x drop" "drop".data "select x ".data []
     (by decide) (by decide) (fun _ hc => nomatch hc)⟩

/-! ## Claims about the execution orchestrator -/

/-- Database oracle whose count query raises a generic driver error whose
text carries vendor detail; the page query itself succeeds. -/
def rawErrorDb : Db :=
  { execute_query_pandas := fun _ _ => .ok ⟨["A"], [[.int 1]]⟩,
    execute_query := fun _ _ =>
      .error (.dbError "ORA-00942: table or view does not exist: SECRET_T"),
    get_query_by_id := fun _ => none }

/-- C1 counterexample: on the filtered-query path a database error is
returned to the caller verbatim — the raw vendor text, which is not one of
the four taxonomy messages. -/
theorem c1_filtered_path_raw_error_counterexample :
    (execute_filtered_query rawErrorDb { sql_query := some "SELECT A FROM T" }).error
      = some "ORA-00942: table or view does not exist: SECRET_T" ∧
    "ORA-00942: table or view does not exist: SECRET_T" ∉ taxonomyMessages := by
  refine ⟨by decide, by decide⟩

/-- C1 (amended): on the chart and table paths, a database error raised by
the page query yields a failure result whose message is the classifier
output, and the classifier always lands in the four-message taxonomy; the
filtered-query path instead returns the raw exception text. -/
theorem c1_chart_and_table_paths_use_taxonomy :
    ∀ (db : Db) (q : String) (ct : Option String) (cc : Option ChartConfig)
      (t : Nat) (limit offset : Int) (m : String),
      (db.execute_query_pandas q (some t) = .error (.dbError m) →
        (execute_query_for_chart db q ct cc t).success = false ∧
        (execute_query_for_chart db q ct cc t).error = some (classifyDbError m)) ∧
      (db.execute_query_pandas (paginatedQuery q limit offset) (some t)
          = .error (.dbError m) →
        (execute_query_for_table db q limit offset t).success = false ∧
        (execute_query_for_table db q limit offset t).error = some (classifyDbError m)) ∧
      classifyDbError m ∈ taxonomyMessages := by
  intro db q ct cc t limit offset m
  refine ⟨?_, ?_, ?_⟩
  · intro h
    unfold execute_query_for_chart
    rw [h]
    exact ⟨rfl, rfl⟩
  · intro h
    unfold execute_query_for_table
    rw [h]
    exact ⟨rfl, rfl⟩
  · unfold classifyDbError
    split_ifs <;> simp [taxonomyMessages]

/-- Database oracle on which the page query raises a missing-column error. -/
def taxonomyWitnessDb : Db :=
  { execute_query_pandas := fun _ _ => .error (.dbError "ORA-00904: invalid identifier"),
    execute_query := fun _ _ => .ok [],
    get_query_by_id := fun _ => none }

/-- C1 witness: the taxonomy theorem at a concrete failing database. -/
theorem c1_chart_and_table_paths_use_taxonomy_witness :
    ((execute_query_for_chart taxonomyWitnessDb "SELECT X FROM T" (some "bar") none 45).success = false ∧
      (execute_query_for_chart taxonomyWitnessDb "SELECT X FROM T" (some "bar") none 45).error
        = some (classifyDbError "ORA-00904: invalid identifier")) ∧
    ((execute_query_for_table taxonomyWitnessDb "SELECT X FROM T" 10 0 45).success = false ∧
      (execute_query_for_table taxonomyWitnessDb "SELECT X FROM T" 10 0 45).error
        = some (classifyDbError "ORA-00904: invalid identifier")) ∧
    classifyDbError "ORA-00904: invalid identifier" ∈ taxonomyMessages :=
  ⟨(c1_chart_and_table_paths_use_taxonomy taxonomyWitnessDb "SELECT X FROM T" (some "bar")
      none 45 10 0 "ORA-00904: invalid identifier").1 rfl,
   (c1_chart_and_table_paths_use_taxonomy taxonomyWitnessDb "SELECT X FROM T" (some "bar")
      none 45 10 0 "ORA-00904: invalid identifier").2.1 rfl,
   (c1_chart_and_table_paths_use_taxonomy taxonomyWitnessDb "SELECT X FROM T" (some "bar")
      none 45 10 0 "ORA-00904: invalid identifier").2.2⟩

/-- C8: KPI shaping of a non-empty frame takes the first value of the
first row, coerces it with `float` (failure coercing to zero, the model
being total so nothing is raised), and wraps it as the one-point
single-series chart labeled KPI. -/
theorem c8_kpi_first_value_single_series (db : Db) (q : String)
    (cc : Option ChartConfig) (t : Nat) (df : Frame) (v : Value)
    (row : List Value) (rest : List (List Value))
    (h : db.execute_query_pandas q (some t) = .ok df)
    (hrows : df.rows = (v :: row) :: rest)
    (hcols : df.columns.isEmpty = false) :
    execute_query_for_chart db q (some "kpi") cc t =
      { success := true,
        data := some (.chart ⟨["KPI"], [{ data := [(pyFloat? v).getD 0] }]⟩),
        chart_type := some "kpi", chart_config := some (cc.getD []) } := by
  have hemp : df.isEmpty = false := by
    unfold Frame.isEmpty
    rw [hrows]
    simpa using hcols
  unfold execute_query_for_chart
  rw [h]
  simp [hemp, hrows]

/-- Database oracle returning the one-row, one-column result `[[42]]`. -/
def kpi42Db : Db :=
  { execute_query_pandas := fun _ _ => .ok ⟨["V"], [[.int 42]]⟩,
    execute_query := fun _ _ => .ok [],
    get_query_by_id := fun _ => none }

/-- C8 witness: the concrete result `[[42]]` shapes to labels `["KPI"]`
and the single series `[42.0]`. -/
theorem c8_kpi_first_value_single_series_witness :
    execute_query_for_chart kpi42Db "SELECT 42 FROM DUAL" (some "kpi") none 45 =
      { success := true,
        data := some (.chart ⟨["KPI"], [{ data := [(42 : ℚ)] }]⟩),
        chart_type := some "kpi", chart_config := some [] } := by
  rw [c8_kpi_first_value_single_series kpi42Db "SELECT 42 FROM DUAL" none 45
    ⟨["V"], [[.int 42]]⟩ (.int 42) [] [] rfl rfl rfl]
  decide

/-- C10: when the page query succeeds (with a non-empty page) but the count
query raises a non-timeout exception, the fallback handler dereferences the
unbound local `count_result`, so the whole call fails with the generic
taxonomy message and the fetched page is discarded — whereas a count
timeout returns the page with the estimated total. -/
theorem c10_count_fallback_raises_namerror (db : Db) (q : String)
    (limit offset : Int) (t : Nat) (df0 : Frame) (m tm : String)
    (hp : db.execute_query_pandas (paginatedQuery q limit offset) (some t) = .ok df0)
    (hne : (dropRnum df0).isEmpty = false) :
    (db.execute_query (countQuery q) (some (min t 30)) = .error (.dbError m) →
      execute_query_for_table db q limit offset t =
        { success := false, error := some msgGeneric }) ∧
    (db.execute_query (countQuery q) (some (min t 30)) = .error (.timeout tm) →
      execute_query_for_table db q limit offset t =
        { success := true,
          data := some (.table ⟨(dropRnum df0).columns, (dropRnum df0).rows,
            ((dropRnum df0).rows.length : Int) + offset⟩) }) := by
  have hfs : fetchStructure db q (dropRnum df0) = dropRnum df0 := by
    unfold fetchStructure
    simp [hne]
  have hclass : classifyDbError nameErrorCountResult = msgGeneric := by decide
  constructor
  · intro hc
    unfold execute_query_for_table
    simp only [hp, hfs, hc, hclass]
  · intro hc
    unfold execute_query_for_table
    simp only [hp, hfs, hc]

/-- Database oracle whose count query is cancelled with a non-timeout
driver error while the page query succeeds. -/
def countFailDb : Db :=
  { execute_query_pandas := fun _ _ => .ok ⟨["A"], [[.int 7]]⟩,
    execute_query := fun _ _ => .error (.dbError "ORA-01013: user requested cancel"),
    get_query_by_id := fun _ => none }

/-- C10 witness: the fetched page is discarded and the generic message
returned when the count query fails with a non-timeout error. -/
theorem c10_count_fallback_raises_namerror_witness :
    execute_query_for_table countFailDb "SELECT A FROM T" 10 0 45 =
      { success := false, error := some msgGeneric } :=
  (c10_count_fallback_raises_namerror countFailDb "SELECT A FROM T" 10 0 45
    ⟨["A"], [[.int 7]]⟩ "ORA-01013: user requested cancel" "" rfl (by decide)).1 rfl

/-! ## Claims about the spreadsheet comparator -/

/-- Diffing a sheet against itself never changes the loop state: every
position reads equal strings from both sides. -/
theorem foldl_diffStep_self (s : Sheet) (name : String) (cap : Nat) :
    ∀ (l : List (Nat × Nat)) (st : List CellDiff × Bool),
      l.foldl (diffStep s s name cap) st = st := by
  intro l
  induction l with
  | nil => intro st; rfl
  | cons p ps ih =>
    intro st
    rw [List.foldl_cons]
    have hstep : diffStep s s name cap st p = st := by
      unfold diffStep
      split
      · rfl
      · simp
    rw [hstep]
    exact ih st

/-- A sheet compared to itself always reports `matched`. -/
theorem compare_sheets_self (s : Sheet) (name : String) (cap : Nat) :
    (compare_sheets s s name cap).status = "matched" := by
  unfold compare_sheets
  split
  · rfl
  · simp [foldl_diffStep_self]

/-- Self comparison through `compareCore` over the own sheet list:
success, and every per-sheet record matched. -/
theorem compareCore_self (wb : Workbook) :
    (compareCore wb wb wb.sheetnames).success = true ∧
    ∀ r ∈ (compareCore wb wb wb.sheetnames).comparison_results, r.status = "matched" := by
  have hcontains : ∀ n ∈ wb.sheetnames, wb.sheetnames.contains n = true := by
    intro n hn
    exact List.elem_eq_true_of_mem hn
  have hmapeq : wb.sheetnames.map (fun sheet_name =>
      if wb.sheetnames.contains sheet_name && wb.sheetnames.contains sheet_name then
        compare_sheets (wb.getSheet sheet_name) (wb.getSheet sheet_name) sheet_name
      else
        ⟨sheet_name, "NA",
          (if wb.sheetnames.contains sheet_name then "sheet exists" else "sheet missing"),
          (if wb.sheetnames.contains sheet_name then "sheet exists" else "sheet missing"),
          "sheet_mismatch", []⟩)
      = wb.sheetnames.map (fun sheet_name =>
          compare_sheets (wb.getSheet sheet_name) (wb.getSheet sheet_name) sheet_name) := by
    apply List.map_eq_map_iff.mpr
    intro n hn
    rw [hcontains n hn]
    simp
  have hfilter_nil : wb.sheetnames.filter (fun n => !wb.sheetnames.contains n) = [] := by
    apply List.filter_eq_nil_iff.mpr
    intro n hn
    rw [hcontains n hn]
    decide
  have hall : ∀ r ∈ wb.sheetnames.map (fun sheet_name =>
      compare_sheets (wb.getSheet sheet_name) (wb.getSheet sheet_name) sheet_name),
      r.status = "matched" := by
    intro r hr
    obtain ⟨n, _, rfl⟩ := List.mem_map.mp hr
    exact compare_sheets_self _ _ _
  have hfilter_all : (wb.sheetnames.map (fun sheet_name =>
        compare_sheets (wb.getSheet sheet_name) (wb.getSheet sheet_name) sheet_name)).filter
        (fun r => r.status == "matched")
      = wb.sheetnames.map (fun sheet_name =>
          compare_sheets (wb.getSheet sheet_name) (wb.getSheet sheet_name) sheet_name) := by
    apply List.filter_eq_self.mpr
    intro r hr
    simp [hall r hr]
  constructor
  · unfold compareCore
    simp only [hmapeq, hfilter_nil, hfilter_all]
    simp [List.length_map]
  · unfold compareCore
    simp only [hmapeq, hfilter_nil, hfilter_all]
    intro r hr
    simp only [List.append_nil, List.map_nil] at hr
    exact hall r hr

/-- C9: comparing any workbook against itself yields overall success and a
`matched` status for every per-sheet record. -/
theorem c9_self_comparison_matched (wb : Workbook) (out : CompareOutcome)
    (h : compare_excel_files wb wb = .ok out) :
    out.success = true ∧ ∀ r ∈ out.comparison_results, r.status = "matched" := by
  unfold compare_excel_files at h
  rw [if_neg (fun hne => hne rfl)] at h
  injection h with h
  subst h
  exact compareCore_self wb

/-- One-sheet workbook used to witness the self-comparison claim. -/
def selfWb : Workbook := ⟨[("S", ⟨1, 1, fun _ _ => some "x"⟩)]⟩

/-- C9 witness: the self-comparison theorem at a concrete workbook. -/
theorem c9_self_comparison_matched_witness :
    (⟨true, 1, 1, [⟨"S", "NA", "NA", "NA", "matched", []⟩]⟩ : CompareOutcome).success = true ∧
    ∀ r ∈ (⟨true, 1, 1, [⟨"S", "NA", "NA", "NA", "matched", []⟩]⟩
        : CompareOutcome).comparison_results, r.status = "matched" :=
  c9_self_comparison_matched selfWb _ rfl

/-- The diff-collection fold never grows the list beyond the cap: a new
record is only appended while the list is strictly below it. -/
theorem foldl_diffStep_length_le (s1 s2 : Sheet) (name : String) (cap : Nat) :
    ∀ (l : List (Nat × Nat)) (st : List CellDiff × Bool),
      st.1.length ≤ cap →
      ((l.foldl (diffStep s1 s2 name cap) st).1).length ≤ cap := by
  intro l
  induction l with
  | nil => intro st h; exact h
  | cons p ps ih =>
    intro st h
    rw [List.foldl_cons]
    apply ih
    unfold diffStep
    split
    · exact h
    · dsimp only
      split
      · split
        · exact h
        · rename_i hlt
          simp only [List.length_append, List.length_cons, List.length_nil]
          omega
      · exact h

/-- The differences list of any per-sheet comparison respects the cap. -/
theorem compare_sheets_diff_le (s1 s2 : Sheet) (name : String) (cap : Nat) :
    (compare_sheets s1 s2 name cap).differences.length ≤ cap := by
  unfold compare_sheets
  split
  · simp
  · dsimp only
    split
    all_goals
      split
      · simp
      · exact foldl_diffStep_length_le s1 s2 name cap _ ([], false) (by simp)

/-- Every record produced by the comparison loop and the missing-sheet
rounds carries at most 1000 diffs (the loop calls `compare_sheets` with its
default cap; structural records carry none). -/
theorem compareCore_diff_le (wb1 wb2 : Workbook) (names : List String) :
    ∀ r ∈ (compareCore wb1 wb2 names).comparison_results,
      r.differences.length ≤ 1000 := by
  intro r hr
  unfold compareCore at hr
  simp only [List.mem_append] at hr
  rcases hr with (hr | hr) | hr
  · obtain ⟨n, _, rfl⟩ := List.mem_map.mp hr
    split
    · exact compare_sheets_diff_le _ _ _ _
    · simp
  · obtain ⟨n, _, rfl⟩ := List.mem_map.mp hr
    simp
  · obtain ⟨n, _, rfl⟩ := List.mem_map.mp hr
    simp

/-- C7: for every pair of workbooks, every per-sheet record of the
comparison outcome carries at most 1000 cell-diff records — the cap is
enforced per sheet, each sheet getting its own collection loop and list. -/
theorem c7_per_sheet_diff_cap (wb1 wb2 : Workbook) (out : CompareOutcome)
    (h : compare_excel_files wb1 wb2 = .ok out) :
    ∀ r ∈ out.comparison_results, r.differences.length ≤ 1000 := by
  unfold compare_excel_files at h
  dsimp only at h
  split at h
  · split at h
    · cases h
    · injection h with h
      subst h
      exact compareCore_diff_le _ _ _
  · injection h with h
    subst h
    exact compareCore_diff_le _ _ _

/-- Workbook pair differing in a single cell, used to witness the cap. -/
def diffWb1 : Workbook := ⟨[("S", ⟨1, 1, fun _ _ => some "a"⟩)]⟩

/-- Second workbook of the witness pair. -/
def diffWb2 : Workbook := ⟨[("S", ⟨1, 1, fun _ _ => some "b"⟩)]⟩

/-- C7 witness: the cap theorem at a concrete differing pair. -/
theorem c7_per_sheet_diff_cap_witness :
    (⟨"S", "multiple", "multiple", "multiple", "not matched",
        [⟨"S", "A1", "a", "b", "not matched"⟩]⟩ : SheetResult).differences.length ≤ 1000 :=
  c7_per_sheet_diff_cap diffWb1 diffWb2
    ⟨false, 1, 0, [⟨"S", "multiple", "multiple", "multiple", "not matched",
        [⟨"S", "A1", "a", "b", "not matched"⟩]⟩]⟩ rfl _ (by decide)

/-- Workbook with sheet set {X, Y} (equal sheet counts with its partner). -/
def wbXY : Workbook :=
  ⟨[("X", ⟨1, 1, fun _ _ => some "a"⟩), ("Y", ⟨1, 1, fun _ _ => some "b"⟩)]⟩

/-- Workbook with sheet set {X, Z}. -/
def wbXZ : Workbook :=
  ⟨[("X", ⟨1, 1, fun _ _ => some "a"⟩), ("Z", ⟨1, 1, fun _ _ => some "c"⟩)]⟩

/-- C4 counterexample: with equally many sheets the comparison loop walks
the first workbook's full sheet list, so sheet Y — present only in file 1 —
receives a `sheet_mismatch` record from the loop in addition to its
`sheet_missing_in_file2` record: two per-sheet reports, not one. -/
theorem c4_missing_sheet_double_report_counterexample :
    compare_excel_files wbXY wbXZ = .ok ⟨false, 4, 1,
      [⟨"X", "NA", "NA", "NA", "matched", []⟩,
       ⟨"Y", "NA", "sheet exists", "sheet missing", "sheet_mismatch", []⟩,
       ⟨"Y", "NA", "sheet exists", "sheet missing", "sheet_missing_in_file2", []⟩,
       ⟨"Z", "NA", "sheet missing", "sheet exists", "sheet_missing_in_file1", []⟩]⟩ ∧
    ((compare_excel_files wbXY wbXZ).toOption.map
      (fun o => (o.comparison_results.filter (fun r => r.sheet == "Y")).length)) = some 2 :=
  ⟨rfl, rfl⟩

/-- C4 (amended): comparing workbook A with sheets {X, Y} against workbook
B with sheets {X, Z} cell-diffs X, reports Y twice — once as
`sheet_mismatch` from the comparison loop (the sheet counts are equal, so
the loop walks the full sheet list of file 1) and once as
`sheet_missing_in_file2` — reports Z once as `sheet_missing_in_file1`, and
yields overall success `false`; no diff is attempted for Y or Z. -/
theorem c4_xy_vs_xz_report_shape (sX sX2 sY sZ : Sheet) :
    compare_excel_files ⟨[("X", sX), ("Y", sY)]⟩ ⟨[("X", sX2), ("Z", sZ)]⟩ =
      .ok ⟨false, 4,
        (if (compare_sheets sX sX2 "X").status = "matched" then 1 else 0),
        [compare_sheets sX sX2 "X",
         ⟨"Y", "NA", "sheet exists", "sheet missing", "sheet_mismatch", []⟩,
         ⟨"Y", "NA", "sheet exists", "sheet missing", "sheet_missing_in_file2", []⟩,
         ⟨"Z", "NA", "sheet missing", "sheet exists", "sheet_missing_in_file1", []⟩]⟩ := by
  by_cases hst : (compare_sheets sX sX2 "X").status = "matched"
  · simp [compare_excel_files, compareCore, Workbook.sheetnames, Workbook.getSheet,
      List.filter, hst]
  · have hb : ((compare_sheets sX sX2 "X").status == "matched") = false :=
      beq_eq_false_iff_ne.mpr hst
    simp [compare_excel_files, compareCore, Workbook.sheetnames, Workbook.getSheet,
      List.filter, hst, hb]
